import Mathlib

/-!
Verification of the Pope-of-Culture movie recommendation and analysis
backend against its natural-language specification.

The development shallowly embeds the request handlers of
`src/app/api/analysis/route.ts` (the movie analysis endpoint and the
recommendation endpoint that live in that file) and
`src/app/api/sentiments/search/route.ts`, together with the inline Python
each of them spawns.  Strings are Lean `String`s, pandas data frames are
`List`s of row structures, JSON objects are Lean structures with `Option`
fields for JSON fields that may be absent, and the floating point
`vote_average` column is modelled as `Rat` (the code only ever compares it
against the constant threshold 6.0, so rationals are a faithful model of
the comparisons).  The asynchronous process machinery is externalized: the
outcome of the spawned process (clean completion, unparsable output,
non-zero exit, timeout) is a parameter of each embedded handler, and the
AI collaborator is a parameter function.

The Python collaborators `movie/gemini_analyzer.py` and `backend_api.py`
are not among the provided sources; the definitions that stand in for them
are modelled from the specification text and carry doc comments saying so.
-/

/-! ## Characters and strings

Lower-casing and literal substring search, embedding Python `str.lower`
and `q in s` / `Series.str.contains(..., regex=False)` on the character
list underlying a `String`. -/

/-- Lower-case a string character by character, embedding Python
`str.lower` for the ASCII titles the dataset holds. -/
def lowerStr (s : String) : String :=
  ⟨s.data.map Char.toLower⟩

/-- True when the first list is a leading segment of the second. -/
def leadsWith : List Char → List Char → Bool
  | [], _ => true
  | _ :: _, [] => false
  | a :: as, b :: bs => a == b && leadsWith as bs

/-- True when `needle` occurs contiguously inside `hay`, embedding the
literal (non-regex) substring test of Python. -/
def occursIn (needle : List Char) : List Char → Bool
  | [] => needle.isEmpty
  | b :: bs => leadsWith needle (b :: bs) || occursIn needle bs

/-- Literal substring test on strings: `strContains hay needle` is true
when `needle` occurs inside `hay`. -/
def strContains (hay needle : String) : Bool :=
  occursIn needle.data hay.data

/-- Split a character list into maximal whitespace-free words. -/
def wordsAux : List Char → List Char → List (List Char)
  | [], acc => if acc.isEmpty then [] else [acc.reverse]
  | c :: cs, acc =>
    if c == ' ' || c == '\t' || c == '\n' then
      if acc.isEmpty then wordsAux cs [] else acc.reverse :: wordsAux cs []
    else
      wordsAux cs (c :: acc)

/-- Modelled from the spec: the cache in `movie/gemini_analyzer.py` is not
among the provided sources; section 3 keys title entries by "the
lower-cased, whitespace-collapsed movie title", which this normalization
realizes (lower-case, then collapse whitespace runs to single spaces). -/
def normalizeTitle (t : String) : String :=
  ⟨List.intercalate [' '] (wordsAux (t.data.map Char.toLower) [])⟩

/-! ## Data model of the analysis endpoint -/

/-- One row of `tmdb_movies_since_1971.csv` as the analysis route consumes
it, after the NaN-to-None coercion of the inline Python (optional fields
become `Option`).  The placeholder record built for an unmatched title has
exactly these fields, so the same structure serves as the resolved movie
dictionary. -/
structure MovieRow where
  id : Option Int
  title : String
  overview : String
  genres : String
  vote_average : Rat
  release_date : String
  imdb_id : Option String
deriving DecidableEq

/-- Score and description of one runtime segment of an intensity
analysis. -/
structure IntensityRating where
  score : Nat
  description : String
deriving DecidableEq

/-- The five ordered runtime segments of an intensity analysis. -/
structure IntensityRatings where
  beginning : IntensityRating
  first_half : IntensityRating
  interval : IntensityRating
  second_half : IntensityRating
  climax : IntensityRating
deriving DecidableEq

/-- The dictionary returned by the AI analyzer (and stored in the cache):
a success flag plus fields the route reads back with `.get` and a default,
hence `Option`. -/
structure Analysis where
  success : Bool
  movie_title : Option String
  intensity_ratings : Option IntensityRatings
  overall_arc : Option String
  peak_moments : Option String
  pacing_assessment : Option String
  plot_path : Option String
  cached : Option Bool
  error : Option String
deriving DecidableEq

/-- The `intensity` object of the analysis response envelope, built at
lines 66-75 of `src/app/api/analysis/route.ts`. -/
structure Intensity where
  success : Bool
  movie_title : String
  intensity_ratings : Option IntensityRatings
  overall_arc : String
  peak_moments : String
  pacing_assessment : String
  plot_path : String
  cached : Bool
deriving DecidableEq

/-- Outcome of invoking `MovieAnalyzer.analyze_movie_intensity`: either a
returned analysis dictionary or a raised exception with message and
traceback (caught by the `except` block of the inline Python). -/
inductive AnalyzerOutcome where
  | ok (analysis : Analysis)
  | raises (msg : String) (tb : String)
deriving DecidableEq

/-- What the spawned process did from the point of view of the Node
handler, beyond a clean completion: output that fails to parse as JSON,
a non-zero exit carrying the accumulated stderr text, or hitting the
`setTimeout` bound. -/
inductive ProcFailure where
  | parseFailure
  | nonzeroExit (stderrOutput : String)
  | timeout
deriving DecidableEq

/-- The JSON printed by the inline Python of the analysis route: the
success envelope with movie and intensity, or the exception envelope with
error and traceback. -/
inductive ScriptResult where
  | ok (movie : MovieRow) (intensity : Intensity)
  | err (error : String) (tb : String)
deriving DecidableEq

/-- The JSON response of the analysis endpoint together with its HTTP
status.  `success` is `none` for the early-validation body, which carries
only an `error` field. -/
structure AnalysisResponse where
  status : Nat
  success : Option Bool
  movie : Option MovieRow
  intensity : Option Intensity
  error : Option String
  traceback : Option String
deriving DecidableEq

/-! ## Movie resolver (analysis route, inline Python lines 35-56) -/

/-- The row filter of line 37 of `src/app/api/analysis/route.ts`:
`df['title'].str.lower() == title.lower()`, exact case-insensitive
equality of the row title with the query. -/
def titleMatches (query : String) (row : MovieRow) : Bool :=
  lowerStr row.title == lowerStr query

/-- The placeholder movie dictionary built at lines 40-48 when
`movie_row.empty`. -/
def placeholderMovie (query : String) : MovieRow :=
  { title := query
    overview := ""
    genres := "Unknown"
    vote_average := 0
    release_date := ""
    id := none
    imdb_id := none }

/-- The movie resolver of the analysis route: filter the dataset by exact
case-insensitive title equality; if the filtered frame is empty build the
placeholder record, otherwise take `iloc[0]`, the first row in dataset
order. -/
def resolveMovie (df : List MovieRow) (query : String) : MovieRow :=
  match df.filter (titleMatches query) with
  | [] => placeholderMovie query
  | row :: _ => row

/-- The resolver as section 4.1 of the spec words it, for comparison with
`resolveMovie`: first a case-insensitive literal substring match, then a
fall back to exact case-insensitive equality, first row in dataset order,
`none` for the NotFound failure on zero matches. -/
def resolveMovieSpec (df : List MovieRow) (query : String) : Option MovieRow :=
  match df.filter (fun r => strContains (lowerStr r.title) (lowerStr query)) with
  | r :: _ => some r
  | [] =>
    match df.filter (titleMatches query) with
    | r :: _ => some r
    | [] => none

/-! ## The analysis cache and the AI analyzer (modelled) -/

/-- One entry of the persistent JSON cache: key and stored analysis. -/
structure CacheEntry where
  key : String
  analysis : Analysis
deriving DecidableEq

/-- Modelled from the spec: the cache lookup inside
`movie/gemini_analyzer.py`, which is not among the provided sources.
Section 4.2: the title-keyed lookup is a normalized-title equality scan
over the cache entries (title keys are stored already normalized, per
section 3); on hit the stored object is marked `cached := true` (section 3
adds the `cached : true` marker on read). -/
def cacheTitleScan (cache : List CacheEntry) (title : String) : Option Analysis :=
  match cache.find? (fun e => e.key == normalizeTitle title) with
  | some e => some { e.analysis with cached := some true }
  | none => none

/-- Modelled from the spec: the full cache lookup of section 4.2 — the
exact id-keyed entry takes priority, then the title scan of
`cacheTitleScan`. -/
def cacheLookup (cache : List CacheEntry) (mid : Option Int) (title : String) :
    Option Analysis :=
  match mid with
  | some i =>
    match cache.find? (fun e => e.key == "id_" ++ toString i) with
    | some e => some { e.analysis with cached := some true }
    | none => cacheTitleScan cache title
  | none => cacheTitleScan cache title

/-- Modelled from the spec: `MovieAnalyzer.analyze_movie_intensity` of
`movie/gemini_analyzer.py` is not among the provided sources.  Per
sections 4.2 and 4.3 it consults the persistent cache for the movie (by id
then by normalized title) and on a hit returns the stored analysis with
the cached marker; on a miss it delegates to the fresh AI analysis, here
an arbitrary parameter `fresh` that may also raise. -/
def analyze_movie_intensity (cache : List CacheEntry)
    (fresh : MovieRow → AnalyzerOutcome) (movie : MovieRow) : AnalyzerOutcome :=
  match cacheLookup cache movie.id movie.title with
  | some a => AnalyzerOutcome.ok a
  | none => fresh movie

/-- The intensity envelope of lines 66-75 of the analysis route: success
is the literal `True`, every other field is read from the analyzer result
with `.get` and a default (the query title, `{}` represented as `none`,
empty strings, `False`). -/
def mkIntensity (title : String) (a : Analysis) : Intensity :=
  { success := true
    movie_title := a.movie_title.getD title
    intensity_ratings := a.intensity_ratings
    overall_arc := a.overall_arc.getD ""
    peak_moments := a.peak_moments.getD ""
    pacing_assessment := a.pacing_assessment.getD ""
    plot_path := a.plot_path.getD ""
    cached := a.cached.getD false }

/-- The inline Python of the analysis route, lines 29-88: resolve the
movie, run the analyzer, and print either the success envelope or the
exception envelope. -/
def runAnalysisScript (df : List MovieRow) (cache : List CacheEntry)
    (title : String) (fresh : MovieRow → AnalyzerOutcome) : ScriptResult :=
  let movie := resolveMovie df title
  match analyze_movie_intensity cache fresh movie with
  | AnalyzerOutcome.ok a => ScriptResult.ok movie (mkIntensity title a)
  | AnalyzerOutcome.raises msg tb => ScriptResult.err msg tb

/-- The POST handler of `src/app/api/analysis/route.ts` (first route of
the file, lines 4-149).  An empty title models the falsy-title validation
(status 400).  `fail` selects which process outcome the close/timeout
handlers observed: parse failure, non-zero exit, or timeout, each resolved
as a status-500 body; a clean completion resolves the parsed script JSON,
with status 200 when its success flag is set and status 400 otherwise. -/
def analysisPOST (df : List MovieRow) (cache : List CacheEntry)
    (title : String) (fresh : MovieRow → AnalyzerOutcome)
    (fail : Option ProcFailure) : AnalysisResponse :=
  if title = "" then
    { status := 400, success := none, movie := none, intensity := none
      error := some "Movie title is required", traceback := none }
  else
    match fail with
    | some ProcFailure.parseFailure =>
      { status := 500, success := some false, movie := none, intensity := none
        error := some "Failed to parse analysis results", traceback := none }
    | some (ProcFailure.nonzeroExit stderrOutput) =>
      { status := 500, success := some false, movie := none, intensity := none
        error := some (if stderrOutput = "" then "Analysis failed" else stderrOutput)
        traceback := none }
    | some ProcFailure.timeout =>
      { status := 500, success := some false, movie := none, intensity := none
        error := some "Analysis timeout", traceback := none }
    | none =>
      match runAnalysisScript df cache title fresh with
      | ScriptResult.ok movie intensity =>
        { status := 200, success := some true, movie := some movie
          intensity := some intensity, error := none, traceback := none }
      | ScriptResult.err e tb =>
        { status := 400, success := some false, movie := none, intensity := none
          error := some e, traceback := some tb }

/-! ## Recommendation endpoint (second route of
`src/app/api/analysis/route.ts`, lines 150-455) -/

/-- The `Movie` interface of the recommendation route (lines 154-166). -/
structure Movie where
  id : Int
  title : String
  vote_average : Rat
  vote_count : Int
  release_date : String
  overview : String
  genres : String
  original_language : String
  poster_path : Option String
  popularity : Rat
  runtime : Option Int
deriving DecidableEq

/-- The JSON the Python recommendation backend prints: success flag, list
of recommendations, optional error. -/
structure RecResult where
  success : Bool
  recommendations : List Movie
  error : Option String
deriving DecidableEq

/-- Split a character list on the two-character separator of the
comma-separated `genres` column (a comma followed by a space). -/
def splitGenresAux : List Char → List Char → List (List Char)
  | [], acc => [acc.reverse]
  | ',' :: ' ' :: rest, acc => acc.reverse :: splitGenresAux rest []
  | c :: rest, acc => splitGenresAux rest (c :: acc)

/-- The list of individual genres of a comma-separated genres string. -/
def genresList (genres : String) : List String :=
  (splitGenresAux genres.data []).map (fun cs => ⟨cs⟩)

/-- The predicate of the modelled recommendation selector: the genre
appears among the comma-separated genres of the movie, the original
language equals the requested one, the vote average is at least 6.0, and
the id is not among the excluded ids. -/
def recMatches (genre language : String) (excludedIds : List Int) (m : Movie) :
    Bool :=
  (genresList m.genres).contains genre
    && m.original_language == language
    && decide ((6 : Rat) ≤ m.vote_average)
    && !(excludedIds.contains m.id)

/-- Modelled from the spec: `backend_api.py` and its
`get_recommendations` are not among the provided sources.  Section 4.4:
given genre, language and previously shown ids, select one MovieRecord
matching genre and language with vote_average at least 6.0 and id outside
the excluded set, deterministically (here: first matches in dataset order,
up to the requested limit); absence of a match is a valid empty result,
not an error. -/
def get_recommendations (df : List Movie) (genre language : String)
    (excludedIds : List Int) (limit : Nat) : RecResult :=
  { success := true
    recommendations := (df.filter (recMatches genre language excludedIds)).take limit
    error := none }

/-- The JSON response of the recommendation endpoint with its HTTP
status.  `success` is `none` for the early-validation body, which carries
only an `error` field. -/
structure RecResponse where
  status : Nat
  success : Option Bool
  recommendations : List Movie
  total : Nat
  excludedCount : Nat
  source : String
  intensity : Option Analysis
  message : Option String
  error : Option String
  details : Option String
deriving DecidableEq

/-- The POST handler of the recommendation route (lines 379-441).  Empty
genre or language models the falsy validation (status 400).  `backendFail`
is the error string when `getPythonRecommendations` resolved a failure
(missing backend file, parse failure, non-zero exit, or its 45 second
timeout); the handler then returns the safe empty result with status 200.
Otherwise the backend result is the modelled selector, the recommendation
list is re-sliced to one element, and a present recommendation is analyzed
by the Gemini collaborator `gemini` (which itself always resolves a
dictionary, never throws). -/
def recommendationsPOST (df : List Movie) (genre language : String)
    (excludedIds : List Int) (backendFail : Option String)
    (gemini : Movie → Analysis) : RecResponse :=
  if genre = "" ∨ language = "" then
    { status := 400, success := none, recommendations := [], total := 0
      excludedCount := 0, source := "", intensity := none, message := none
      error := some "Genre and language are required", details := none }
  else
    let result : RecResult :=
      match backendFail with
      | some e => { success := false, recommendations := [], error := some e }
      | none => get_recommendations df genre language excludedIds 1
    if result.success = false then
      { status := 200, success := some false, recommendations := [], total := 0
        excludedCount := excludedIds.length, source := "python_backend"
        intensity := none
        message := some "Python backend unavailable; falling back to empty recommendations."
        error := none, details := result.error }
    else
      let recommendations := result.recommendations.take 1
      let intensityAnalysis : Option Analysis :=
        match recommendations with
        | [] => none
        | movie :: _ => some (gemini movie)
      { status := 200, success := some true, recommendations := recommendations
        total := recommendations.length, excludedCount := excludedIds.length
        source := "python_backend", intensity := intensityAnalysis
        message := some (if recommendations.length = 0 then
            "No " ++ genre ++ " movies found in " ++ language ++ " with rating ≥ 6.0"
          else if (intensityAnalysis.map (fun a => a.success)).getD false then
            "Found 1 recommendation from TMDB dataset with AI analysis"
          else
            "Found 1 recommendation from TMDB dataset")
        error := none, details := none }

/-- One round trip of the dashboard page
(`src/app/(dashboard)/dashboard/page.tsx`, lines 104-181): call the
recommendation endpoint with the accumulated excluded ids and, when the
response is successful and carries a movie, append that movie id to the
excluded-id state (lines 169-170). -/
def dashboardStep (df : List Movie) (genre language : String)
    (gemini : Movie → Analysis) (prev : List Int) : List Int :=
  let resp := recommendationsPOST df genre language prev none gemini
  if resp.success = some true then
    match resp.recommendations with
    | movie :: _ => prev ++ [movie.id]
    | [] => prev
  else
    prev

/-- The excluded-id state of the dashboard after `n` recommendation round
trips, starting from an empty history. -/
def dashboardRun (df : List Movie) (genre language : String)
    (gemini : Movie → Analysis) : Nat → List Int
  | 0 => []
  | n + 1 => dashboardStep df genre language gemini (dashboardRun df genre language gemini n)

/-! ## Sentiment candidate search
(`src/app/api/sentiments/search/route.ts`) -/

/-- One row of `TMDB_movie_dataset_v11.csv` as the search script consumes
it; fields that may be NaN are `Option`. -/
structure DatasetRow where
  id : Option Int
  title : String
  imdb_id : Option String
  release_date : Option String
deriving DecidableEq

/-- One entry of the search result list (lines 40-45 of the search
route). -/
structure SearchMovie where
  id : Int
  title : String
  imdb_id : String
  release_date : String
deriving DecidableEq

/-- The IMDb-id filter of line 28 of the search route:
`df['imdb_id'].notna() & (df['imdb_id'] != '')`. -/
def hasImdbId (r : DatasetRow) : Bool :=
  match r.imdb_id with
  | some s => !(s == "")
  | none => false

/-- The title filter of lines 31-32 of the search route: the lower-cased
query occurs literally inside the lower-cased title. -/
def titleContainsQuery (query : String) (r : DatasetRow) : Bool :=
  strContains (lowerStr r.title) (lowerStr query)

/-- Conversion of a dataset row to a search result entry (lines 40-45):
NaN id becomes 0, imdb_id is guaranteed present by the filter, NaN release
date becomes the empty string. -/
def toSearchMovie (r : DatasetRow) : SearchMovie :=
  { id := r.id.getD 0
    title := r.title
    imdb_id := r.imdb_id.getD ""
    release_date := r.release_date.getD "" }

/-- The inline Python of the search route (lines 23-53): keep the rows
with a present non-empty imdb_id, keep those whose lower-cased title
contains the lower-cased query, truncate to the first 20, and convert. -/
def searchScript (df : List DatasetRow) (query : String) : List SearchMovie :=
  let withIds := df.filter hasImdbId
  let matched := (withIds.filter (titleContainsQuery query)).take 20
  matched.map toSearchMovie

/-- The JSON response of the search endpoint with its HTTP status.
`success` is `none` for the early-validation body.  The failure bodies of
this route are resolved without an explicit status, hence status 200. -/
structure SearchResponse where
  status : Nat
  success : Option Bool
  movies : List SearchMovie
  total : Option Nat
  error : Option String
deriving DecidableEq

/-- The POST handler of `src/app/api/sentiments/search/route.ts` (lines
5-116).  An empty query models the falsy-query validation (status 400);
`fail` selects the observed process failure, each resolved as a
status-200 body with `success := false` and an empty movie list. -/
def sentimentSearchPOST (df : List DatasetRow) (query : String)
    (fail : Option ProcFailure) : SearchResponse :=
  if query = "" then
    { status := 400, success := none, movies := [], total := none
      error := some "Search query is required" }
  else
    match fail with
    | some ProcFailure.parseFailure =>
      { status := 200, success := some false, movies := [], total := none
        error := some "Failed to parse search results" }
    | some (ProcFailure.nonzeroExit stderrOutput) =>
      { status := 200, success := some false, movies := [], total := none
        error := some (if stderrOutput = "" then "Search failed" else stderrOutput) }
    | some ProcFailure.timeout =>
      { status := 200, success := some false, movies := [], total := none
        error := some "Search timeout" }
    | none =>
      let movies := searchScript df query
      { status := 200, success := some true, movies := movies
        total := some movies.length, error := none }

/-! ## Timeout bounds of the collaborator calls -/

/-- Millisecond bound of the `setTimeout` guarding the analysis-route
Python process (`src/app/api/analysis/route.ts` line 139). -/
def analysisTimeoutMs : Nat := 120000

/-- Millisecond bound of the `setTimeout` guarding the Gemini analysis
process inside the recommendation route (line 370). -/
def geminiAnalysisTimeoutMs : Nat := 120000

/-- Millisecond bound of the `setTimeout` guarding the sentiment search
process (`src/app/api/sentiments/search/route.ts` line 106). -/
def sentimentSearchTimeoutMs : Nat := 30000

/-- Millisecond bound of the `setTimeout` guarding the review-fetching
sentiment analysis process (120 second bound for scraping plus
analysis). -/
def sentimentAnalysisTimeoutMs : Nat := 120000

/-- The value `getGeminiAnalysis` resolves when its timeout fires (lines
366-370 of `src/app/api/analysis/route.ts`). -/
def geminiTimeoutResult : Analysis :=
  { success := false, movie_title := none, intensity_ratings := none
    overall_arc := none, peak_moments := none, pacing_assessment := none
    plot_path := none, cached := none, error := some "Analysis timeout" }

/-- Body of the minimal sentiment-analysis response: success flag and
error string. -/
structure SentimentTimeoutBody where
  success : Bool
  error : String
deriving DecidableEq

/-- The body the review-fetching sentiment analysis route resolves when
its 120 second timeout fires. -/
def sentimentAnalysisTimeoutBody : SentimentTimeoutBody :=
  { success := false
    error := "Analysis timeout (scraping may have taken too long)" }

/-! ## Sample data used by witnesses and counterexamples -/

/-- Sample dataset row echoing the concrete scenario of spec section 8. -/
def inceptionRow : MovieRow :=
  { id := some 1
    title := "Inception"
    overview := "A thief who steals corporate secrets through dream-sharing technology."
    genres := "Action, Sci-Fi"
    vote_average := 9
    release_date := "2010-07-16"
    imdb_id := some "tt1375666" }

/-- One-row sample dataset for the analysis route. -/
def sampleDF : List MovieRow := [inceptionRow]

/-- A second row with the same title up to case, for the
multiple-match scenario. -/
def inceptionRemake : MovieRow :=
  { id := some 2
    title := "inception"
    overview := "A low budget remake."
    genres := "Drama"
    vote_average := 5
    release_date := "2019-01-01"
    imdb_id := none }

/-- Two-row sample dataset whose rows both match the title query
"INCEPTION" case-insensitively. -/
def sampleDupDF : List MovieRow := [inceptionRow, inceptionRemake]

/-- A fresh analysis result as the AI collaborator would return it. -/
def freshAnalysis : Analysis :=
  { success := true
    movie_title := some "Inception"
    intensity_ratings := none
    overall_arc := some "Slow burn into a layered climax."
    peak_moments := some "The rotating corridor."
    pacing_assessment := some "Deliberate."
    plot_path := some "plots/inception.png"
    cached := none
    error := none }

/-- A stored cache entry whose recorded analysis FAILED (success is
false), keyed by the normalized title. -/
def failedStoredAnalysis : Analysis :=
  { success := false
    movie_title := some "Inception"
    intensity_ratings := none
    overall_arc := none
    peak_moments := none
    pacing_assessment := none
    plot_path := none
    cached := none
    error := some "Gemini API not available" }

/-- Sample cache holding only the failed analysis under the normalized
title key. -/
def sampleCache : List CacheEntry :=
  [{ key := "inception", analysis := failedStoredAnalysis }]

/-- The failed stored analysis as the cache lookup returns it, with the
cached marker set. -/
def failedCachedAnalysis : Analysis :=
  { failedStoredAnalysis with cached := some true }

/-- A collaborator that always succeeds with the fresh analysis. -/
def okFresh : MovieRow → AnalyzerOutcome :=
  fun _ => AnalyzerOutcome.ok freshAnalysis

/-- A collaborator that always raises, modelling an unavailable AI
backend. -/
def raisingFresh : MovieRow → AnalyzerOutcome :=
  fun _ => AnalyzerOutcome.raises "Gemini API not available" "Traceback (most recent call last)"

/-- Sample movie for the recommendation route, echoing spec section 8. -/
def inceptionMovie : Movie :=
  { id := 1
    title := "Inception"
    vote_average := 9
    vote_count := 34000
    release_date := "2010-07-16"
    overview := "A thief who steals corporate secrets through dream-sharing technology."
    genres := "Action, Sci-Fi"
    original_language := "en"
    poster_path := none
    popularity := 100
    runtime := some 148 }

/-- One-movie sample dataset for the recommendation route. -/
def sampleMovies : List Movie := [inceptionMovie]

/-- A Gemini collaborator that always resolves the fresh analysis. -/
def okGemini : Movie → Analysis := fun _ => freshAnalysis

/-- Sample row of the sentiment search dataset. -/
def searchRow : DatasetRow :=
  { id := some 27205
    title := "Inception"
    imdb_id := some "tt1375666"
    release_date := some "2010-07-16" }

/-- One-row sample dataset for the sentiment search route. -/
def sampleSearchDF : List DatasetRow := [searchRow]

/-! ## Theorems settling the claims, with their helper lemmas -/

/-- A filter over rows on which the predicate is everywhere false is empty. -/
lemma filter_none_of_forall (p : MovieRow → Bool) (df : List MovieRow)
    (h : ∀ r ∈ df, p r = false) : df.filter p = [] :=
  List.filter_eq_nil_iff.mpr (by intro r hr; simp [h r hr])

/-- When no dataset row matches the query the resolver yields the placeholder. -/
lemma resolveMovie_of_no_match (df : List MovieRow) (title : String)
    (h : ∀ r ∈ df, titleMatches title r = false) :
    resolveMovie df title = placeholderMovie title := by
  have hf := filter_none_of_forall (titleMatches title) df h
  simp [resolveMovie, hf]

/-- The filtered list starts with the entry at the first index satisfying the
predicate (every earlier index fails it). -/
lemma filter_first (p : MovieRow → Bool) :
    ∀ (l : List MovieRow) (i : Nat) (h1 : i < l.length),
      p (l.get ⟨i, h1⟩) = true →
      (∀ j (hj : j < l.length), j < i → p (l.get ⟨j, hj⟩) = false) →
      ∃ t, l.filter p = l.get ⟨i, h1⟩ :: t := by
  intro l
  induction l with
  | nil => intro i h1; exact absurd h1 (Nat.not_lt_zero i)
  | cons a as ih =>
    intro i h1 hm hfirst
    cases i with
    | zero =>
      refine ⟨as.filter p, ?_⟩
      simp only [List.get] at hm ⊢
      simp [List.filter, hm]
    | succ k =>
      have ha : p a = false := hfirst 0 (Nat.succ_pos _) (Nat.succ_pos k)
      have h1k : k < as.length := Nat.lt_of_succ_lt_succ h1
      have hmk : p (as.get ⟨k, h1k⟩) = true := hm
      have hfk : ∀ j (hj : j < as.length), j < k → p (as.get ⟨j, hj⟩) = false := by
        intro j hj hjk
        exact hfirst (j + 1) (Nat.succ_lt_succ hj) (Nat.succ_lt_succ hjk)
      obtain ⟨t, ht⟩ := ih k h1k hmk hfk
      refine ⟨t, ?_⟩
      simp [List.filter, ha, ht]

/-- C9: for a title query matching several dataset rows, the resolver
returns the first matching row in dataset order. -/
theorem C9_first_match (df : List MovieRow) (query : String) (i : Nat)
    (h1 : i < df.length)
    (hm : titleMatches query (df.get ⟨i, h1⟩) = true)
    (hfirst : ∀ j (hj : j < df.length), j < i → titleMatches query (df.get ⟨j, hj⟩) = false) :
    resolveMovie df query = df.get ⟨i, h1⟩ := by
  obtain ⟨t, ht⟩ := filter_first (titleMatches query) df i h1 hm hfirst
  simp [resolveMovie, ht]

/-- Witness for C9 at a dataset whose two rows both match the query. -/
theorem C9_first_match_witness :
    resolveMovie sampleDupDF "INCEPTION" = inceptionRow :=
  C9_first_match sampleDupDF "INCEPTION" 0 (by decide) (by decide)
    (by intro j hj hji; exact absurd hji (Nat.not_lt_zero j))

/-- C1 counterexample: the query "Avatar" matches zero rows of the sample
dataset, yet the analysis endpoint produces a (placeholder) movie record
and a success envelope instead of a NotFound failure. -/
theorem C1_resolver_counterexample :
    sampleDF.filter (titleMatches "Avatar") = [] ∧
    resolveMovie sampleDF "Avatar" = placeholderMovie "Avatar" ∧
    (analysisPOST sampleDF [] "Avatar" okFresh none).movie
      = some (placeholderMovie "Avatar") ∧
    (analysisPOST sampleDF [] "Avatar" okFresh none).success = some true ∧
    (analysisPOST sampleDF [] "Avatar" okFresh none).status = 200 := by
  decide

/-- C1 (amended): for a title matching zero dataset rows the resolver
synthesizes the placeholder movie record and the analysis proceeds on it,
returning it in a success envelope; no NotFound failure is signalled. -/
theorem C1_resolver_placeholder (df : List MovieRow) (title : String) (a : Analysis)
    (ht : title ≠ "") (h : ∀ r ∈ df, titleMatches title r = false) :
    resolveMovie df title = placeholderMovie title ∧
    (analysisPOST df [] title (fun _ => AnalyzerOutcome.ok a) none).movie
      = some (placeholderMovie title) ∧
    (analysisPOST df [] title (fun _ => AnalyzerOutcome.ok a) none).success
      = some true := by
  have hres := resolveMovie_of_no_match df title h
  refine ⟨hres, ?_, ?_⟩ <;>
    simp [analysisPOST, ht, runAnalysisScript, analyze_movie_intensity, cacheLookup,
      cacheTitleScan, hres, placeholderMovie]

/-- Witness for the amended C1 at a title absent from the sample dataset. -/
theorem C1_resolver_placeholder_witness :
    resolveMovie sampleDF "Avatar 2" = placeholderMovie "Avatar 2" ∧
    (analysisPOST sampleDF [] "Avatar 2" (fun _ => AnalyzerOutcome.ok freshAnalysis) none).movie
      = some (placeholderMovie "Avatar 2") ∧
    (analysisPOST sampleDF [] "Avatar 2" (fun _ => AnalyzerOutcome.ok freshAnalysis) none).success
      = some true :=
  C1_resolver_placeholder sampleDF "Avatar 2" freshAnalysis (by decide) (by decide)

/-- C4 counterexample: for the query "Incep" a case-insensitive literal
substring match exists in the sample dataset (and the spec-described
resolver returns that row), yet the implemented resolver ignores it and
falls through to the placeholder, because it only ever tests exact
case-insensitive equality. -/
theorem C4_substring_counterexample :
    strContains (lowerStr "Inception") (lowerStr "Incep") = true ∧
    resolveMovieSpec sampleDF "Incep" = some inceptionRow ∧
    resolveMovie sampleDF "Incep" = placeholderMovie "Incep" := by
  decide

/-- C4 (amended): the resolver performs a single exact case-insensitive
equality match with no substring stage: when no dataset title equals the
query case-insensitively it produces the placeholder record (even if rows
containing the query as a substring exist), and any non-placeholder result
is a dataset row whose title equals the query case-insensitively. -/
theorem C4_equality_only (df : List MovieRow) (query : String) :
    ((∀ r ∈ df, titleMatches query r = false) →
      resolveMovie df query = placeholderMovie query) ∧
    (∀ r, r ∈ df → titleMatches query r = true →
      ∃ r2, resolveMovie df query = r2 ∧ r2 ∈ df ∧ titleMatches query r2 = true) := by
  constructor
  · exact resolveMovie_of_no_match df query
  · intro r hr hm
    have hne : df.filter (titleMatches query) ≠ [] := by
      intro hnil
      have := List.filter_eq_nil_iff.mp hnil r hr
      simp [hm] at this
    cases hfe : df.filter (titleMatches query) with
    | nil => exact absurd hfe hne
    | cons r2 t =>
      refine ⟨r2, ?_, ?_, ?_⟩
      · simp [resolveMovie, hfe]
      · have : r2 ∈ df.filter (titleMatches query) := by rw [hfe]; exact List.mem_cons_self r2 t
        exact (List.mem_filter.mp this).1
      · have : r2 ∈ df.filter (titleMatches query) := by rw [hfe]; exact List.mem_cons_self r2 t
        exact (List.mem_filter.mp this).2

/-- Witness for the amended C4 at the substring-only query of the counterexample. -/
theorem C4_equality_only_witness :
    resolveMovie sampleDF "Incep" = placeholderMovie "Incep" :=
  (C4_equality_only sampleDF "Incep").1 (by decide)

/-- C2 counterexample: when the AI collaborator raises, the analysis
endpoint resolves the failure body with HTTP status 400 — a hard HTTP
failure, not a 200-equivalent success envelope. -/
theorem C2_failure_status_counterexample :
    (analysisPOST sampleDF [] "Inception" raisingFresh none).status = 400 ∧
    (analysisPOST sampleDF [] "Inception" raisingFresh none).success = some false := by
  decide

/-- C2 (amended): every collaborator failure is caught and resolved as a
JSON body with success false and a present, human-readable error message
(never an unhandled fault), but the analysis endpoint attaches HTTP status
400 to analyzer-reported failures and 500 to parse failures, crashes and
timeouts; only the recommendation endpoint resolves its backend failure
with status 200. -/
theorem C2_failure_envelope :
    (∀ (df : List MovieRow) (cache : List CacheEntry) (title : String)
        (fresh : MovieRow → AnalyzerOutcome) (e tb : String),
      title ≠ "" →
      runAnalysisScript df cache title fresh = ScriptResult.err e tb →
      (analysisPOST df cache title fresh none).status = 400 ∧
      (analysisPOST df cache title fresh none).success = some false ∧
      (analysisPOST df cache title fresh none).error = some e) ∧
    (∀ (df : List MovieRow) (cache : List CacheEntry) (title : String)
        (fresh : MovieRow → AnalyzerOutcome) (f : ProcFailure),
      title ≠ "" →
      (analysisPOST df cache title fresh (some f)).status = 500 ∧
      (analysisPOST df cache title fresh (some f)).success = some false ∧
      ∃ m, (analysisPOST df cache title fresh (some f)).error = some m ∧ m ≠ "") ∧
    (∀ (df : List Movie) (genre language : String) (excludedIds : List Int)
        (gemini : Movie → Analysis) (e : String),
      genre ≠ "" → language ≠ "" →
      (recommendationsPOST df genre language excludedIds (some e) gemini).status = 200 ∧
      (recommendationsPOST df genre language excludedIds (some e) gemini).success
        = some false ∧
      (recommendationsPOST df genre language excludedIds (some e) gemini).message
        = some "Python backend unavailable; falling back to empty recommendations.") := by
  refine ⟨?_, ?_, ?_⟩
  · intro df cache title fresh e tb ht hrun
    simp [analysisPOST, ht, hrun]
  · intro df cache title fresh f ht
    cases f with
    | parseFailure => simp [analysisPOST, ht]
    | nonzeroExit s =>
      by_cases hs : s = "" <;> simp [analysisPOST, ht, hs]
    | timeout => simp [analysisPOST, ht]
  · intro df genre language excludedIds gemini e hg hl
    simp [recommendationsPOST, hg, hl]

/-- Witness for the amended C2 at a crash with empty stderr. -/
theorem C2_failure_envelope_witness :
    (analysisPOST sampleDF [] "Inception" okFresh (some (ProcFailure.nonzeroExit ""))).status = 500 ∧
    (analysisPOST sampleDF [] "Inception" okFresh (some (ProcFailure.nonzeroExit ""))).success = some false ∧
    ∃ m, (analysisPOST sampleDF [] "Inception" okFresh (some (ProcFailure.nonzeroExit ""))).error = some m ∧ m ≠ "" :=
  C2_failure_envelope.2.1 sampleDF [] "Inception" okFresh (ProcFailure.nonzeroExit "") (by decide)

/-- C7 counterexample: on the timeout path the analysis endpoint body is
the bare failure object, with neither a movie nor an intensity field. -/
theorem C7_shape_counterexample :
    (analysisPOST sampleDF [] "Inception" okFresh (some ProcFailure.timeout)).movie = none ∧
    (analysisPOST sampleDF [] "Inception" okFresh (some ProcFailure.timeout)).intensity = none := by
  decide

/-- C7 (amended): the movie-and-intensity output shape holds exactly on
the success path (cache hit or fresh computation completing): then the
body carries both the resolved movie and the intensity envelope; on every
failure path (analyzer exception, parse failure, crash, timeout) the body
carries neither. -/
theorem C7_output_shape (df : List MovieRow) (cache : List CacheEntry)
    (title : String) (fresh : MovieRow → AnalyzerOutcome) (ht : title ≠ "") :
    (∀ m i, runAnalysisScript df cache title fresh = ScriptResult.ok m i →
      (analysisPOST df cache title fresh none).movie = some m ∧
      (analysisPOST df cache title fresh none).intensity = some i) ∧
    (∀ e tb, runAnalysisScript df cache title fresh = ScriptResult.err e tb →
      (analysisPOST df cache title fresh none).movie = none ∧
      (analysisPOST df cache title fresh none).intensity = none) ∧
    (∀ f, (analysisPOST df cache title fresh (some f)).movie = none ∧
      (analysisPOST df cache title fresh (some f)).intensity = none) := by
  refine ⟨?_, ?_, ?_⟩
  · intro m i hrun
    simp [analysisPOST, ht, hrun]
  · intro e tb hrun
    simp [analysisPOST, ht, hrun]
  · intro f
    cases f with
    | parseFailure => simp [analysisPOST, ht]
    | nonzeroExit s => simp [analysisPOST, ht]
    | timeout => simp [analysisPOST, ht]

/-- Witness for the amended C7 on the success path of the sample dataset. -/
theorem C7_output_shape_witness :
    (analysisPOST sampleDF [] "Inception" okFresh none).movie = some inceptionRow ∧
    (analysisPOST sampleDF [] "Inception" okFresh none).intensity
      = some (mkIntensity "Inception" freshAnalysis) :=
  (C7_output_shape sampleDF [] "Inception" okFresh (by decide)).1
    inceptionRow (mkIntensity "Inception" freshAnalysis) (by decide)

/-- A title-scan hit always carries the cached marker. -/
lemma cacheTitleScan_cached_marker (cache : List CacheEntry) (title : String)
    (a : Analysis) (h : cacheTitleScan cache title = some a) :
    a.cached = some true := by
  unfold cacheTitleScan at h
  cases hk : cache.find? (fun e => e.key == normalizeTitle title) with
  | some e =>
    rw [hk] at h
    simp only [Option.some.injEq] at h
    rw [← h]
  | none =>
    rw [hk] at h
    exact absurd h (by simp)

/-- A cache-lookup hit always carries the cached marker. -/
lemma cacheLookup_cached_marker (cache : List CacheEntry) (mid : Option Int)
    (title : String) (a : Analysis) (h : cacheLookup cache mid title = some a) :
    a.cached = some true := by
  unfold cacheLookup at h
  cases mid with
  | none => exact cacheTitleScan_cached_marker cache title a h
  | some i =>
    dsimp only at h
    cases hk : cache.find? (fun e => e.key == "id_" ++ toString i) with
    | some e =>
      rw [hk] at h
      simp only [Option.some.injEq] at h
      rw [← h]
    | none =>
      rw [hk] at h
      exact cacheTitleScan_cached_marker cache title a h

/-- C3: on a cache hit the intensity object returned by the analysis
endpoint is annotated with cached true and success true, regardless of the
success flag recorded in the stored entry. -/
theorem C3_cache_hit_flags (df : List MovieRow) (cache : List CacheEntry)
    (title : String) (fresh : MovieRow → AnalyzerOutcome) (a : Analysis)
    (ht : title ≠ "")
    (h : cacheLookup cache (resolveMovie df title).id (resolveMovie df title).title
      = some a) :
    ∃ i, (analysisPOST df cache title fresh none).intensity = some i ∧
      i.cached = true ∧ i.success = true := by
  refine ⟨mkIntensity title a, ?_, ?_, rfl⟩
  · simp [analysisPOST, ht, runAnalysisScript, analyze_movie_intensity, h]
  · have hc := cacheLookup_cached_marker cache (resolveMovie df title).id
      (resolveMovie df title).title a h
    simp [mkIntensity, hc]

/-- Witness for C3 at a cache entry whose stored success flag is false. -/
theorem C3_cache_hit_flags_witness :
    failedStoredAnalysis.success = false ∧
    ∃ i, (analysisPOST sampleDF sampleCache "Inception" raisingFresh none).intensity
        = some i ∧ i.cached = true ∧ i.success = true :=
  ⟨by decide,
    C3_cache_hit_flags sampleDF sampleCache "Inception" raisingFresh
      failedCachedAnalysis (by decide) (by decide)⟩

/-- A movie satisfying the selection predicate has its id outside the
excluded set. -/
lemma recMatches_not_excluded (genre language : String) (excludedIds : List Int)
    (m : Movie) (h : recMatches genre language excludedIds m = true) :
    m.id ∉ excludedIds := by
  intro hm
  unfold recMatches at h
  simp only [Bool.and_eq_true, Bool.not_eq_true'] at h
  have := h.2
  simp [hm] at this

/-- Any movie in the recommendation response has its id outside the excluded
ids of the request. -/
lemma mem_recommendationsPOST_not_excluded (df : List Movie)
    (genre language : String) (excludedIds : List Int)
    (backendFail : Option String) (gemini : Movie → Analysis) (m : Movie)
    (h : m ∈ (recommendationsPOST df genre language excludedIds backendFail gemini).recommendations) :
    m.id ∉ excludedIds := by
  unfold recommendationsPOST at h
  by_cases hv : genre = "" ∨ language = ""
  · simp [hv] at h
  · simp only [hv, if_false] at h
    cases backendFail with
    | some e => simp at h
    | none =>
      simp only [get_recommendations] at h
      have hm : m ∈ df.filter (recMatches genre language excludedIds) :=
        List.take_subset _ _ (List.take_subset _ _ h)
      exact recMatches_not_excluded genre language excludedIds m
        (List.mem_filter.mp hm).2

/-- One dashboard round trip keeps the accumulated excluded-id list free of
duplicates. -/
lemma dashboardStep_preserves (df : List Movie) (genre language : String)
    (gemini : Movie → Analysis) (prev : List Int) (h : prev.Nodup) :
    (dashboardStep df genre language gemini prev).Nodup := by
  unfold dashboardStep
  by_cases hs : (recommendationsPOST df genre language prev none gemini).success = some true
  · simp only [hs, if_true]
    cases hr : (recommendationsPOST df genre language prev none gemini).recommendations with
    | nil => exact h
    | cons movie rest =>
      have hmem : movie ∈ (recommendationsPOST df genre language prev none gemini).recommendations := by
        rw [hr]; exact List.mem_cons_self movie rest
      have hnot := mem_recommendationsPOST_not_excluded df genre language prev none gemini movie hmem
      simp [List.nodup_append, h, hnot]
  · simp [hs, h]

/-- C5: the recommendation selector never returns a movie whose id is in
the excluded set, and across repeated dashboard round trips, where each
returned id is appended to the exclusions, no movie id is ever returned
twice. -/
theorem C5_excluded_ids :
    (∀ (df : List Movie) (genre language : String) (excludedIds : List Int)
        (backendFail : Option String) (gemini : Movie → Analysis) (m : Movie),
      m ∈ (recommendationsPOST df genre language excludedIds backendFail gemini).recommendations →
      m.id ∉ excludedIds) ∧
    (∀ (df : List Movie) (genre language : String) (gemini : Movie → Analysis)
        (n : Nat), (dashboardRun df genre language gemini n).Nodup) := by
  constructor
  · exact mem_recommendationsPOST_not_excluded
  · intro df genre language gemini n
    induction n with
    | zero => simp [dashboardRun]
    | succ k ih => exact dashboardStep_preserves df genre language gemini _ ih

/-- Witness for C5 at the sample movie and a disjoint excluded set. -/
theorem C5_excluded_ids_witness :
    inceptionMovie.id ∉ ([5] : List Int) :=
  C5_excluded_ids.1 sampleMovies "Action" "en" [5] none okGemini inceptionMovie
    (by decide)

/-- The recommendation list of a validated, non-failing request is the first
match of the modelled selector. -/
lemma recommendationsPOST_recs (df : List Movie) (genre language : String)
    (excludedIds : List Int) (gemini : Movie → Analysis)
    (hv : ¬(genre = "" ∨ language = "")) :
    (recommendationsPOST df genre language excludedIds none gemini).recommendations
      = (df.filter (recMatches genre language excludedIds)).take 1 := by
  simp [recommendationsPOST, hv, get_recommendations, List.take_take]

/-- C6: the recommendation endpoint returns at most one movie, every
returned movie satisfies the selection predicate (genre and language
match, vote average at least 6.0, id not excluded), and when no movie
matches the result is still a status-200 success envelope carrying the
user-facing explanatory message, not an error. -/
theorem C6_at_most_one (df : List Movie) (genre language : String)
    (excludedIds : List Int) (gemini : Movie → Analysis)
    (hg : genre ≠ "") (hl : language ≠ "") :
    (recommendationsPOST df genre language excludedIds none gemini).recommendations.length ≤ 1 ∧
    (∀ m ∈ (recommendationsPOST df genre language excludedIds none gemini).recommendations,
      recMatches genre language excludedIds m = true) ∧
    ((recommendationsPOST df genre language excludedIds none gemini).recommendations = [] →
      (recommendationsPOST df genre language excludedIds none gemini).status = 200 ∧
      (recommendationsPOST df genre language excludedIds none gemini).success = some true ∧
      (recommendationsPOST df genre language excludedIds none gemini).message
        = some ("No " ++ genre ++ " movies found in " ++ language ++ " with rating ≥ 6.0") ∧
      (recommendationsPOST df genre language excludedIds none gemini).error = none) := by
  have hv : ¬(genre = "" ∨ language = "") := by simp [hg, hl]
  have hrecs := recommendationsPOST_recs df genre language excludedIds gemini hv
  refine ⟨?_, ?_, ?_⟩
  · rw [hrecs]
    exact List.length_take_le 1 _
  · intro m hm
    rw [hrecs] at hm
    exact (List.mem_filter.mp (List.take_subset _ _ hm)).2
  · intro hnil
    have h0 : (df.filter (recMatches genre language excludedIds)).take 1 = [] := by
      rw [← hrecs]; exact hnil
    refine ⟨?_, ?_, ?_, ?_⟩ <;>
      simp [recommendationsPOST, hv, get_recommendations, h0]

/-- Witness for C6 at the spec section 8 scenario: the only matching movie is
excluded, so the result is the empty success envelope with its message. -/
theorem C6_at_most_one_witness :
    (recommendationsPOST sampleMovies "Action" "en" [1] none okGemini).recommendations.length ≤ 1 ∧
    (recommendationsPOST sampleMovies "Action" "en" [1] none okGemini).recommendations = [] ∧
    (recommendationsPOST sampleMovies "Action" "en" [1] none okGemini).status = 200 ∧
    (recommendationsPOST sampleMovies "Action" "en" [1] none okGemini).success = some true ∧
    (recommendationsPOST sampleMovies "Action" "en" [1] none okGemini).message
      = some "No Action movies found in en with rating ≥ 6.0" := by
  have h := C6_at_most_one sampleMovies "Action" "en" [1] okGemini
    (by decide) (by decide)
  have hnil : (recommendationsPOST sampleMovies "Action" "en" [1] none okGemini).recommendations = [] := by
    decide
  obtain ⟨h1, _, h3⟩ := h
  obtain ⟨hs, hsu, hm, _⟩ := h3 hnil
  exact ⟨h1, hnil, hs, hsu, hm⟩

/-- C8: every collaborator call is guarded by an explicit timeout between
30 seconds and two minutes, and firing the timeout resolves a recoverable
success-false body (the analysis route response, the Gemini analysis
value, the sentiment search response and the review-fetching sentiment
analysis body), never an unhandled crash. -/
theorem C8_timeouts :
    (30000 ≤ analysisTimeoutMs ∧ analysisTimeoutMs ≤ 120000) ∧
    (30000 ≤ geminiAnalysisTimeoutMs ∧ geminiAnalysisTimeoutMs ≤ 120000) ∧
    (30000 ≤ sentimentSearchTimeoutMs ∧ sentimentSearchTimeoutMs ≤ 120000) ∧
    (30000 ≤ sentimentAnalysisTimeoutMs ∧ sentimentAnalysisTimeoutMs ≤ 120000) ∧
    (∀ (df : List MovieRow) (cache : List CacheEntry) (title : String)
        (fresh : MovieRow → AnalyzerOutcome),
      title ≠ "" →
      (analysisPOST df cache title fresh (some ProcFailure.timeout)).success = some false ∧
      (analysisPOST df cache title fresh (some ProcFailure.timeout)).error
        = some "Analysis timeout") ∧
    (geminiTimeoutResult.success = false ∧
      geminiTimeoutResult.error = some "Analysis timeout") ∧
    (∀ (df : List DatasetRow) (query : String),
      query ≠ "" →
      (sentimentSearchPOST df query (some ProcFailure.timeout)).success = some false ∧
      (sentimentSearchPOST df query (some ProcFailure.timeout)).error
        = some "Search timeout") ∧
    (sentimentAnalysisTimeoutBody.success = false ∧
      sentimentAnalysisTimeoutBody.error
        = "Analysis timeout (scraping may have taken too long)") := by
  refine ⟨by decide, by decide, by decide, by decide, ?_, by decide, ?_, by decide⟩
  · intro df cache title fresh ht
    constructor <;> simp [analysisPOST, ht]
  · intro df query hq
    constructor <;> simp [sentimentSearchPOST, hq]

/-- Witness for C8 on the timeout paths of the two embedded handlers. -/
theorem C8_timeouts_witness :
    (analysisPOST sampleDF [] "Inception" okFresh (some ProcFailure.timeout)).success
      = some false ∧
    (sentimentSearchPOST sampleSearchDF "incep" (some ProcFailure.timeout)).error
      = some "Search timeout" :=
  ⟨(C8_timeouts.2.2.2.2.1 sampleDF [] "Inception" okFresh (by decide)).1,
    (C8_timeouts.2.2.2.2.2.2.1 sampleSearchDF "incep" (by decide)).2⟩

/-- Two consecutive filters fuse into a filter on the conjunction. -/
lemma filter_filter_bool {α : Type} (p q : α → Bool) (l : List α) :
    (l.filter p).filter q = l.filter (fun a => p a && q a) := by
  induction l with
  | nil => rfl
  | cons a as ih =>
    cases hp : p a <;> cases hq : q a <;>
      simp [List.filter, hp, hq, ih]

/-- A row passing the imdb-id filter yields a non-empty imdb id after the
default. -/
lemma hasImdbId_getD_ne (r : DatasetRow) (h : hasImdbId r = true) :
    r.imdb_id.getD "" ≠ "" := by
  unfold hasImdbId at h
  cases hr : r.imdb_id with
  | none => rw [hr] at h; simp at h
  | some s =>
    rw [hr] at h
    simp only [Bool.not_eq_true', beq_eq_false_iff_ne] at h
    simpa [hr] using h

/-- C10: the sentiment search endpoint returns at most 20 movies, every
returned movie carries a present non-empty imdb id, and (for a non-empty
query) the list is exactly the first 20 rows, in dataset order, that have
an imdb id and contain the query in their title case-insensitively. -/
theorem C10_search_results (df : List DatasetRow) (query : String) :
    (sentimentSearchPOST df query none).movies.length ≤ 20 ∧
    (∀ m ∈ (sentimentSearchPOST df query none).movies, m.imdb_id ≠ "") ∧
    (query ≠ "" → (sentimentSearchPOST df query none).movies
      = ((df.filter (fun r => titleContainsQuery query r && hasImdbId r)).take 20).map
          toSearchMovie) := by
  by_cases hq : query = ""
  · refine ⟨?_, ?_, ?_⟩
    · simp [sentimentSearchPOST, hq]
    · intro m hm
      simp [sentimentSearchPOST, hq] at hm
    · intro h
      exact absurd hq h
  · have hmv : (sentimentSearchPOST df query none).movies
        = ((df.filter (fun r => titleContainsQuery query r && hasImdbId r)).take 20).map
            toSearchMovie := by
      simp [sentimentSearchPOST, hq, searchScript, filter_filter_bool]
    refine ⟨?_, ?_, fun _ => hmv⟩
    · rw [hmv]
      simp only [List.length_map]
      exact List.length_take_le 20 _
    · intro m hm
      rw [hmv] at hm
      obtain ⟨r, hr, hconv⟩ := List.mem_map.mp hm
      have hrf : r ∈ df.filter (fun r => titleContainsQuery query r && hasImdbId r) :=
        List.take_subset _ _ hr
      have hid : hasImdbId r = true := by
        have := (List.mem_filter.mp hrf).2
        simp only [Bool.and_eq_true] at this
        exact this.2
      rw [← hconv]
      exact hasImdbId_getD_ne r hid

/-- Witness for C10 at the sample search dataset and the query incep. -/
theorem C10_search_results_witness :
    toSearchMovie searchRow ∈ (sentimentSearchPOST sampleSearchDF "incep" none).movies ∧
    (toSearchMovie searchRow).imdb_id ≠ "" :=
  ⟨by decide,
    (C10_search_results sampleSearchDF "incep").2.1 (toSearchMovie searchRow) (by decide)⟩
